import Mathlib

/-!
Verification of the Dimini live knowledge-graph engine.

This file shallowly embeds the parts of the backend that the spec talks
about and proves (or refutes) the spec claims against them:

* `SemanticLinker.cosine_similarity` (backend/app/services/semantic_linker.py)
* the Neo4j graph-store primitives `create_or_update_entity`,
  `create_similarity_edge`, `update_weighted_degree`
  (backend/app/graph/neo4j_client.py)
* `EntityExtractor.extract` (backend/app/services/entity_extractor.py)
* `GraphBuilder.process_transcript_chunk` (backend/app/services/graph_builder.py)
* the background-metrics scheduler `GraphAlgorithms`
  (backend/app/graph/algorithms.py)

Python floats are modelled as real numbers (for the cosine computation,
which needs square roots) and as rationals elsewhere; machine-level
floating point is out of scope.  Stateful code is modelled by explicit
state passing; the `asyncio` background loops are modelled as trace
functions over an explicit schedule of environment events.
-/

namespace Dimini

/-! ## Semantic linker: cosine similarity

Embeds `SemanticLinker.cosine_similarity` (semantic_linker.py lines 99-130).
`np.dot` on two equal-length 1-D arrays is the sum of pointwise products;
`np.linalg.norm` is the Euclidean norm. -/

/-- `np.dot(a, b)` for 1-D vectors: sum of pointwise products. -/
def dotp (a b : List ℝ) : ℝ := (List.zipWith (· * ·) a b).sum

/-- `np.linalg.norm(a)`: Euclidean norm. -/
noncomputable def norml (a : List ℝ) : ℝ := Real.sqrt (dotp a a)

/-- `SemanticLinker.cosine_similarity`: cosine of the angle between the two
vectors, remapped from [-1,1] to [0,1] via `(cos + 1) / 2`; returns `0.0`
when either vector has zero norm (the `if norm_a == 0 or norm_b == 0`
guard in the source). -/
noncomputable def cosine_similarity (a b : List ℝ) : ℝ :=
  if norml a = 0 ∨ norml b = 0 then 0
  else (dotp a b / (norml a * norml b) + 1) / 2

/-! ## Graph store: Neo4j client model

Embeds the Cypher operations of `Neo4jClient`
(backend/app/graph/neo4j_client.py).  A `MERGE` on
`(:Entity {session_id, node_id})` matches on the composite key and applies
`ON CREATE` / `ON MATCH`; an undirected `MERGE (a)-[:SIMILAR_TO]-(b)`
matches a relationship in either orientation.  Scores and embeddings are
modelled as rationals. -/

structure NEntity where
  session_id : String
  node_id : String
  node_type : String
  label : String
  embedding : List ℚ
  mention_count : ℕ
  context : Option String
  weighted_degree : ℚ
  pagerank : ℚ
  betweenness : ℚ
  deriving DecidableEq, Repr

structure NEdge where
  session_id : String
  source : String
  target : String
  similarity_score : ℚ
  deriving DecidableEq, Repr

structure NeoGraph where
  entities : List NEntity
  edges : List NEdge
  deriving DecidableEq, Repr

/-- `MATCH (e:Entity {session_id: s, node_id: n})`, first match. -/
def findEntity (g : NeoGraph) (s n : String) : Option NEntity :=
  g.entities.find? (fun e => e.session_id == s && e.node_id == n)

/-- `Neo4jClient.create_or_update_entity` (neo4j_client.py lines 104-167):
validates the embedding dimension (1536), then `MERGE` on the composite
key with `ON CREATE SET` of all fields (`mention_count = 1`,
`weighted_degree = 0.0`, `pagerank = 0.15`, `betweenness = 0.0`) and
`ON MATCH SET e.mention_count = e.mention_count + 1` only. -/
def create_or_update_entity (g : NeoGraph) (session_id node_id node_type label : String)
    (embedding : List ℚ) (context : Option String) :
    Except String (NeoGraph × NEntity) :=
  if embedding.length ≠ 1536 then
    .error "Invalid embedding dimension"
  else
    match findEntity g session_id node_id with
    | some e =>
        let bump := fun (x : NEntity) =>
          if x.session_id == session_id && x.node_id == node_id then
            { x with mention_count := x.mention_count + 1 }
          else x
        .ok ({ g with entities := g.entities.map bump },
             { e with mention_count := e.mention_count + 1 })
    | none =>
        let e : NEntity :=
          { session_id := session_id, node_id := node_id, node_type := node_type,
            label := label, embedding := embedding, mention_count := 1,
            context := context, weighted_degree := 0, pagerank := 0.15,
            betweenness := 0 }
        .ok ({ g with entities := g.entities ++ [e] }, e)

/-- Does the relationship `r` connect `a` and `b` (either orientation)
within session `s`?  This is what the undirected
`MERGE (source)-[r:SIMILAR_TO]-(target)` pattern matches. -/
def edgeMatches (r : NEdge) (s a b : String) : Bool :=
  r.session_id == s &&
    ((r.source == a && r.target == b) || (r.source == b && r.target == a))

/-- `Neo4jClient.create_similarity_edge` (neo4j_client.py lines 169-205):
`MATCH` both endpoint entities (no rows, hence `None` and no write, if
either is missing), then undirected `MERGE` with
`ON CREATE SET r.similarity_score = ...` — an existing edge in either
orientation is returned untouched. -/
def create_similarity_edge (g : NeoGraph) (session_id source_id target_id : String)
    (similarity_score : ℚ) : NeoGraph × Option NEdge :=
  if (findEntity g session_id source_id).isSome
      && (findEntity g session_id target_id).isSome then
    match g.edges.find? (fun r => edgeMatches r session_id source_id target_id) with
    | some r => (g, some r)
    | none =>
        let r : NEdge :=
          { session_id := session_id, source := source_id, target := target_id,
            similarity_score := similarity_score }
        ({ g with edges := g.edges ++ [r] }, some r)
  else (g, none)

/-- Is edge `r` incident to node `n` of session `s`?  This is the
`OPTIONAL MATCH (e)-[r:SIMILAR_TO]-()` pattern of
`update_weighted_degree`. -/
def incidentTo (r : NEdge) (s n : String) : Bool :=
  r.session_id == s && (r.source == n || r.target == n)

/-- Sum of `similarity_score` over all edges currently incident to the
node: the value computed by the `update_weighted_degree` Cypher query. -/
def incidentSum (g : NeoGraph) (s n : String) : ℚ :=
  ((g.edges.filter (fun r => incidentTo r s n)).map (fun r => r.similarity_score)).sum

/-- `Neo4jClient.update_weighted_degree` (neo4j_client.py lines 261-290):
recomputes the weighted degree as the full incident-edge score sum
(`coalesce(..., 0.0)` for a node with no edges), stores it on the node and
returns it; if the `MATCH` finds no node, no row is produced and the
Python wrapper returns `0.0` with no write. -/
def update_weighted_degree (g : NeoGraph) (session_id node_id : String) :
    NeoGraph × ℚ :=
  match findEntity g session_id node_id with
  | none => (g, 0)
  | some _ =>
      let wd := incidentSum g session_id node_id
      let setwd := fun (x : NEntity) =>
        if x.session_id == session_id && x.node_id == node_id then
          { x with weighted_degree := wd }
        else x
      ({ g with entities := g.entities.map setwd }, wd)

/-! ## Entity extractor

Embeds `EntityExtractor.extract` (backend/app/services/entity_extractor.py
lines 67-125).  The OpenAI chat-completions call is external; its possible
outcomes (a raised exception, a response without a function call, a
function call whose JSON arguments fail to parse, or a parsed list of raw
entity objects possibly missing required keys) are an explicit input. -/

inductive NodeType
  | TOPIC
  | EMOTION
  deriving DecidableEq, Repr

/-- `NodeType.value` of the pydantic `str` enum (models/graph.py). -/
def NodeType.value : NodeType → String
  | .TOPIC => "TOPIC"
  | .EMOTION => "EMOTION"

structure ExtractedEntity where
  node_id : String
  node_type : NodeType
  label : String
  context : Option String
  deriving DecidableEq, Repr

structure EntityExtractionResult where
  entities : List ExtractedEntity
  deriving DecidableEq, Repr

/-- One raw entity object from the parsed function-call JSON; required
keys may be absent (`none`), which makes the per-entity conversion raise
a `KeyError` that the source catches and logs, skipping the entity. -/
structure RawEntity where
  node_id : Option String
  node_type : Option String
  label : Option String
  context : Option String
  deriving DecidableEq, Repr

inductive FunctionArgs
  | malformed
  | parsed (entities : List RawEntity)
  deriving DecidableEq, Repr

/-- Outcome of the external chat-completions call. -/
inductive LLMOutcome
  | llmRaise
  | noFunctionCall
  | functionCall (args : FunctionArgs)
  deriving DecidableEq, Repr

/-- The per-entity conversion inside `extract`: reads the required keys
`node_type`, `node_id`, `label` (a missing one raises `KeyError`, caught
per entity), maps `"topic"` to `TOPIC` and anything else to `EMOTION`,
and takes `context` via `.get`. -/
def parseEntity (r : RawEntity) : Option ExtractedEntity :=
  match r.node_id, r.node_type, r.label with
  | some nid, some nt, some lab =>
      some { node_id := nid,
             node_type := if nt == "topic" then .TOPIC else .EMOTION,
             label := lab, context := r.context }
  | _, _, _ => none

/-- The `not transcript_chunk or not transcript_chunk.strip()` guard of
`extract`: true exactly when the chunk is empty or whitespace-only. -/
def isBlankChunk (transcript_chunk : String) : Bool :=
  transcript_chunk.data.all Char.isWhitespace

/-- `EntityExtractor.extract`: empty or whitespace-only input
short-circuits to an empty result; every failure of the capability call
or of JSON parsing is caught by the enclosing `try`/`except` and yields
an empty result; individually malformed entities are skipped.  The
function never raises. -/
def extract (transcript_chunk : String) (llm : LLMOutcome) : EntityExtractionResult :=
  if isBlankChunk transcript_chunk then { entities := [] }
  else
    match llm with
    | .llmRaise => { entities := [] }
    | .noFunctionCall => { entities := [] }
    | .functionCall .malformed => { entities := [] }
    | .functionCall (.parsed raws) => { entities := raws.filterMap parseEntity }

/-! ## Graph builder pipeline

Embeds `GraphBuilder.process_transcript_chunk`
(backend/app/services/graph_builder.py lines 23-207).  The builder
persists through Prisma models `graphnode` / `graphedge`; the embedding
and linking collaborators (`self.linker.get_embedding`,
`self.linker.find_related_nodes`) are injected, so the model takes them
as explicit function arguments.  Broadcasts and capability calls are
recorded as an event trace. -/

structure GNode where
  id : ℕ
  sessionId : String
  nodeId : String
  nodeType : String
  label : String
  embedding : Option (List ℚ)
  mentionCount : ℕ
  context : Option String
  deriving DecidableEq, Repr

structure GEdge where
  sessionId : String
  sourceNodeId : String
  targetNodeId : String
  similarityScore : ℚ
  deriving DecidableEq, Repr

structure Db where
  nodes : List GNode
  edges : List GEdge
  nextId : ℕ
  deriving DecidableEq, Repr

/-- Observable calls the pipeline makes: `RealtimeService` broadcasts and
embedding-capability calls.  `graphBatchUpdate` is
`RealtimeService.broadcast_graph_batch_update` (realtime.py lines
87-122); `embedBatch` is `SemanticLinker.get_embeddings_batch`
(semantic_linker.py lines 58-97). -/
inductive Ev
  | processingStatus (status message : String)
  | nodeAdded (nodeId : String)
  | edgeAdded (source target : String)
  | graphBatchUpdate
  | embedSingle (text : String)
  | embedBatch (texts : List String)
  deriving DecidableEq, Repr

structure ProcessingResult where
  nodes_added : List GNode
  edges_added : List GEdge
  status : String
  error : Option String
  deriving DecidableEq, Repr

/-- The injected collaborators of one `process_transcript_chunk` call:
the extraction-call outcome, `linker.get_embedding` (`none` models a
failed embedding generation) and `linker.find_related_nodes` (a list of
`(node_id, score)` pairs). -/
structure PipelineEnv where
  llm : LLMOutcome
  getEmbedding : String → Option (List ℚ)
  findRelated : String × List ℚ → List (String × Option (List ℚ)) → List (String × ℚ)

structure BuildState where
  db : Db
  nodesAdded : List GNode
  edgesAdded : List GEdge
  existingData : List (String × Option (List ℚ))
  events : List Ev
  deriving Repr

/-- `db.graphnode.find_first` on `(sessionId, nodeId)`. -/
def findNode (db : Db) (sid nid : String) : Option GNode :=
  db.nodes.find? (fun n => n.sessionId == sid && n.nodeId == nid)

/-- `db.graphedge.find_first` with the two-orientation `OR` filter
(graph_builder.py lines 146-160). -/
def edgeExists (db : Db) (sid a b : String) : Bool :=
  (db.edges.find? (fun e => e.sessionId == sid &&
      ((e.sourceNodeId == a && e.targetNodeId == b)
        || (e.sourceNodeId == b && e.targetNodeId == a)))).isSome

/-- Modelled from the spec: the Prisma schema file (`schema.prisma`)
defining the `GraphNode` model and the default value its `mentionCount`
column takes on `db.graphnode.create` is not part of the source tree
under src/; per the spec (section 3), `mention_count` is "monotonic,
starts at 1". -/
def prismaMentionCountDefault : ℕ := 1

/-- One iteration of the step-3/4/5 entity loop of
`process_transcript_chunk` (graph_builder.py lines 88-179): bump the
mention count if the node exists; otherwise embed the label, skip on
embedding failure, else create the node, broadcast `node_added`, link
against the comparison base, create the missing edges (broadcasting
`edge_added` each), and append the new node to the comparison base. -/
def builderEdgeStep (rt : Bool) (sid nid : String) (st : BuildState)
    (p : String × ℚ) : BuildState :=
  if edgeExists st.db sid nid p.1 then st
  else
    let e : GEdge := { sessionId := sid, sourceNodeId := nid,
                       targetNodeId := p.1, similarityScore := p.2 }
    { st with db := { st.db with edges := st.db.edges ++ [e] },
              edgesAdded := st.edgesAdded ++ [e],
              events := st.events ++ (if rt then [.edgeAdded nid p.1] else []) }

/-- The create path of the entity loop (graph_builder.py lines 113-179):
create the node (`mentionCount` takes the schema default), record it in
`nodes_added`, broadcast `node_added` and the `linking` status, link
against the comparison base (which does not yet include the new node),
create the missing edges, then append the new node to the comparison
base. -/
def createEntityStep (env : PipelineEnv) (rt : Bool) (sid : String)
    (st : BuildState) (entity : ExtractedEntity) (emb : List ℚ) : BuildState :=
  let node : GNode :=
    { id := st.db.nextId, sessionId := sid, nodeId := entity.node_id,
      nodeType := entity.node_type.value, label := entity.label,
      embedding := some emb, mentionCount := prismaMentionCountDefault,
      context := entity.context }
  let st2 := { st with
    db := { st.db with nodes := st.db.nodes ++ [node],
                       nextId := st.db.nextId + 1 },
    nodesAdded := st.nodesAdded ++ [node],
    events := st.events
      ++ (if rt then [.nodeAdded entity.node_id] else [])
      ++ (if rt then [.processingStatus "linking" "Finding connections"] else []) }
  let related := env.findRelated (entity.node_id, emb) st.existingData
  let st3 := related.foldl (builderEdgeStep rt sid entity.node_id) st2
  { st3 with existingData := st3.existingData ++ [(entity.node_id, some emb)] }

def processEntity (env : PipelineEnv) (rt : Bool) (sid : String)
    (st : BuildState) (entity : ExtractedEntity) : BuildState :=
  match findNode st.db sid entity.node_id with
  | some n =>
      { st with db := { st.db with
          nodes := st.db.nodes.map (fun m =>
            if m.id == n.id then { m with mentionCount := m.mentionCount + 1 }
            else m) } }
  | none =>
      let st1 := { st with events := st.events ++ [.embedSingle entity.label] }
      match env.getEmbedding entity.label with
      | none => st1
      | some emb => createEntityStep env rt sid st1 entity emb

/-- `GraphBuilder.process_transcript_chunk`: extraction, short-circuit on
an empty entity list, snapshot of the session nodes as comparison base,
then the per-entity loop, then a completion status broadcast.  Nothing in
the model raises, so the top-level `except` branch (status `"error"`) is
unreachable here. -/
def process_transcript_chunk (env : PipelineEnv) (rt : Bool)
    (session_id transcript_chunk : String) (db : Db) :
    ProcessingResult × Db × List Ev :=
  let ev0 : List Ev :=
    if rt then [.processingStatus "extracting" "Extracting entities from transcript"] else []
  let extraction := extract transcript_chunk env.llm
  if extraction.entities.isEmpty then
    ({ nodes_added := [], edges_added := [], status := "no_entities_found",
       error := none }, db, ev0)
  else
    let existingData := (db.nodes.filter (fun n => n.sessionId == session_id)).map
      (fun n => (n.nodeId, n.embedding))
    let ev1 := ev0 ++ (if rt then [.processingStatus "embedding" "Generating semantic embeddings"] else [])
    let st0 : BuildState :=
      { db := db, nodesAdded := [], edgesAdded := [],
        existingData := existingData, events := ev1 }
    let st := extraction.entities.foldl (processEntity env rt session_id) st0
    let evF := st.events ++ (if rt then [.processingStatus "completed" "Processing completed"] else [])
    ({ nodes_added := st.nodesAdded, edges_added := st.edgesAdded,
       status := "success", error := none }, st.db, evF)

/-! ## Metrics scheduler

Embeds `GraphAlgorithms` (backend/app/graph/algorithms.py).
`start_background_algorithms` / `stop_background_algorithms` act on an
explicit state of spawned tasks and the `active_sessions` set; the two
background coroutines are modelled as trace functions over an explicit
schedule of environment events (stop calls, tick outcomes,
cancellations).  Sleeps and ticks are recorded as actions; a call that
raises performs no graph update and is not recorded. -/

inductive BgTask
  | pagerank (session_id : String) (interval : ℕ)
  | betweenness (session_id : String) (interval : ℕ)
  deriving DecidableEq, Repr

structure AlgoState where
  active_sessions : List String
  tasks : List BgTask
  deriving DecidableEq, Repr

/-- `GraphAlgorithms.start_background_algorithms` (algorithms.py lines
226-234): unconditionally `asyncio.create_task` of one Tier-2 loop
(interval 10s) and one Tier-3 loop (interval 60s); there is no check of
`active_sessions` or of previously spawned tasks. -/
def start_background_algorithms (session_id : String) (st : AlgoState) : AlgoState :=
  { st with tasks := st.tasks
      ++ [.pagerank session_id 10, .betweenness session_id 60] }

/-- `GraphAlgorithms.stop_background_algorithms` (algorithms.py lines
236-240): remove the id from `active_sessions` if present. -/
def stop_background_algorithms (session_id : String) (st : AlgoState) : AlgoState :=
  if session_id ∈ st.active_sessions then
    { st with active_sessions := st.active_sessions.erase session_id }
  else st

def pagerankTaskCount (st : AlgoState) (sid : String) : ℕ :=
  st.tasks.countP (fun t => match t with
    | .pagerank s _ => s == sid
    | _ => false)

def betweennessTaskCount (st : AlgoState) (sid : String) : ℕ :=
  st.tasks.countP (fun t => match t with
    | .betweenness s _ => s == sid
    | _ => false)

/-- Outcome of one awaited computation call. -/
inductive TickResult
  | ok
  | tickRaise
  | cancel
  deriving DecidableEq, Repr

/-- Environment schedule entries for the Tier-2 loop, one per loop
iteration: either `stop_background_algorithms` ran before the `while`
guard, or it ran while the loop slept (the post-sleep check breaks), or
the iteration reached its tick with the given outcome. -/
inductive LoopEvent
  | stopBeforeGuard
  | stopDuringSleep
  | tick (r : TickResult)
  deriving DecidableEq, Repr

/-- Recorded actions of a background task.  `pTick i` is a completed
`update_pagerank_streaming` call with `maxIterations = i` (20 cold,
5 warm/seeded); `bTick ok` is a completed `update_betweenness_streaming`
call (which catches its own errors and returns 0 on failure);
`retrySleep` is a backoff wait inside a retry handler. -/
inductive Act
  | addActive
  | pTick (iterations : ℕ)
  | sleep (secs : ℕ)
  | retrySleep (secs : ℕ)
  | bTick (ok : Bool)
  | discardActive
  deriving DecidableEq, Repr

/-- Tier-2 backoff delay: `2 ** attempt`, i.e. 1s, 2s, 4s
(algorithms.py line 132). -/
def pagerankRetryDelay (attempt : ℕ) : ℕ := 2 ^ attempt

/-- Tier-3 backoff delay: `5 * (attempt + 1)`, i.e. 5s, 10s, 15s
(algorithms.py line 215). -/
def betweennessRetryDelay (attempt : ℕ) : ℕ := 5 * (attempt + 1)

/-- The Tier-2 retry handler (algorithms.py lines 129-137): up to 3
attempts, each sleeping `2 ** attempt` then re-running the seeded
(5-iteration) computation; a successful attempt breaks.  `outcomes`
gives each attempt's success. -/
def pagerankRetryActsAux (outcomes : List Bool) : ℕ → ℕ → List Act
  | 0, _ => []
  | remaining + 1, attempt =>
      [.retrySleep (pagerankRetryDelay attempt), .pTick 5]
        ++ (if outcomes.getD attempt false then []
            else pagerankRetryActsAux outcomes remaining (attempt + 1))

def pagerankRetryActs (outcomes : List Bool) : List Act :=
  pagerankRetryActsAux outcomes 3 0

/-- Result of running a background coroutine against a finite schedule:
the recorded action trace, whether the session id is still in
`active_sessions` when the run ends, and whether the coroutine actually
returned (`false` when the schedule ran out mid-loop). -/
structure TaskRun where
  trace : List Act
  stillActive : Bool
  finished : Bool
  deriving DecidableEq, Repr

/-- The `try`-block `while` loop of `pagerank_background_task`
(algorithms.py lines 114-137) plus its exception handlers: a cooperative
stop exits the loop (or breaks after the sleep); a cancelled tick is
caught by `except CancelledError`; a raising tick leaves the loop into
`except Exception`, which runs the bounded retry sequence and then falls
off the end of the handler — the loop is never re-entered.  Returns the
recorded actions and whether the coroutine returned. -/
def pagerankLoopAux (retries : List Bool) : List LoopEvent → List Act × Bool
  | [] => ([], false)
  | .stopBeforeGuard :: _ => ([], true)
  | .stopDuringSleep :: _ => ([.sleep 10], true)
  | .tick .cancel :: _ => ([.sleep 10], true)
  | .tick .tickRaise :: _ => ([.sleep 10] ++ pagerankRetryActs retries, true)
  | .tick .ok :: rest =>
      let r := pagerankLoopAux retries rest
      ([.sleep 10, .pTick 5] ++ r.1, r.2)

/-- `GraphAlgorithms.pagerank_background_task` (algorithms.py lines
100-141).  `active_sessions.add` and the first (cold, 20-iteration) run
happen BEFORE the `try` block: if the cold run raises or is cancelled,
the exception propagates without the `finally: discard` ever being
installed, and the session id stays in `active_sessions`.  Once the
`try` is entered, every terminating path runs `finally:
active_sessions.discard(session_id)`. -/
def pagerank_background_task (cold : TickResult) (events : List LoopEvent)
    (retries : List Bool) : TaskRun :=
  match cold with
  | .tickRaise => { trace := [.addActive], stillActive := true, finished := true }
  | .cancel => { trace := [.addActive], stillActive := true, finished := true }
  | .ok =>
      let r := pagerankLoopAux retries events
      if r.2 then
        { trace := [.addActive, .pTick 20] ++ r.1 ++ [.discardActive],
          stillActive := false, finished := true }
      else
        { trace := [.addActive, .pTick 20] ++ r.1,
          stillActive := true, finished := false }

/-- Environment schedule entries for the Tier-3 loop.  `tick ok` is a
completed `update_betweenness_streaming` call: that function catches any
computation exception internally and returns 0 (algorithms.py lines
177-185), so a failed computation does NOT raise into the loop.
`bodyRaise retryOk` stands for an `Exception` escaping the loop body
itself, which is what the `except Exception` retry handler (lines
211-220) actually guards. -/
inductive BLoopEvent
  | stopBeforeGuard
  | stopDuringSleep
  | cancelInSleep
  | bodyRaise (retryOk : Bool)
  | tick (ok : Bool)
  deriving DecidableEq, Repr

/-- The Tier-3 retry handler (algorithms.py lines 212-220): sleeps
`5 * (attempt + 1)` then calls `update_betweenness_streaming` — which
cannot raise an `Exception` (it catches internally), so the first
attempt always breaks the retry loop. -/
def betweennessRetryActs (firstOutcome : Bool) : List Act :=
  [.retrySleep (betweennessRetryDelay 0), .bTick firstOutcome]

/-- `GraphAlgorithms.betweenness_background_task` (algorithms.py lines
187-220): membership-guarded sleep/tick loop; `except CancelledError`
just logs; `except Exception` runs the bounded retry sequence and then
the coroutine ends.  There is no `finally` and the task never touches
`active_sessions`.  A tick whose computation fails records `bTick false`
(score write skipped, 0 returned) and the loop continues normally. -/
def betweenness_background_task : List BLoopEvent → List Act × Bool
  | [] => ([], false)
  | .stopBeforeGuard :: _ => ([], true)
  | .stopDuringSleep :: _ => ([.sleep 60], true)
  | .cancelInSleep :: _ => ([], true)
  | .bodyRaise retryOk :: _ => ([.sleep 60] ++ betweennessRetryActs retryOk, true)
  | .tick ok :: rest =>
      let r := betweenness_background_task rest
      ([.sleep 60, .bTick ok] ++ r.1, r.2)

/-- The `retrySleep` delays occurring in a trace, in order. -/
def retrySleeps (acts : List Act) : List ℕ :=
  acts.filterMap (fun a => match a with
    | .retrySleep s => some s
    | _ => none)

/-! ## Event counters and concrete scenario data -/

def countBatchEv (evs : List Ev) : ℕ :=
  evs.countP (fun e => match e with | .graphBatchUpdate => true | _ => false)

def countNodeAddedEv (evs : List Ev) : ℕ :=
  evs.countP (fun e => match e with | .nodeAdded _ => true | _ => false)

def countEdgeAddedEv (evs : List Ev) : ℕ :=
  evs.countP (fun e => match e with | .edgeAdded _ _ => true | _ => false)

def countEmbedSingleEv (evs : List Ev) : ℕ :=
  evs.countP (fun e => match e with | .embedSingle _ => true | _ => false)

def countEmbedBatchEv (evs : List Ev) : ℕ :=
  evs.countP (fun e => match e with | .embedBatch _ => true | _ => false)

/-- A 1536-dimensional all-zero embedding, matching the validated
dimension of `create_or_update_entity`. -/
def emb1536 : List ℚ := List.replicate 1536 0

def entA : NEntity :=
  { session_id := "s", node_id := "a", node_type := "TOPIC", label := "A",
    embedding := [5], mention_count := 3, context := none,
    weighted_degree := 0, pagerank := 0.15, betweenness := 0 }

def entB : NEntity :=
  { session_id := "s", node_id := "b", node_type := "EMOTION", label := "B",
    embedding := [7], mention_count := 1, context := none,
    weighted_degree := 0, pagerank := 0.15, betweenness := 0 }

/-- Two entities, no edges. -/
def gAB : NeoGraph := { entities := [entA, entB], edges := [] }

/-- Two entities with two edges incident to `a` (scores 1/2 and 1/4). -/
def gC5 : NeoGraph :=
  { entities := [entA, entB],
    edges := [
      { session_id := "s", source := "a", target := "b", similarity_score := 1/2 },
      { session_id := "s", source := "c", target := "a", similarity_score := 1/4 }] }

def nodeA : GNode :=
  { id := 7, sessionId := "s", nodeId := "a", nodeType := "TOPIC", label := "A",
    embedding := some [5], mentionCount := 3, context := none }

def dbA : Db := { nodes := [nodeA], edges := [], nextId := 8 }

def stA : BuildState :=
  { db := dbA, nodesAdded := [], edgesAdded := [], existingData := [],
    events := [] }

def envSimple : PipelineEnv :=
  { llm := .noFunctionCall, getEmbedding := fun _ => some [2],
    findRelated := fun _ _ => [] }

def entityA : ExtractedEntity :=
  { node_id := "a", node_type := .TOPIC, label := "A", context := none }

def entityB : ExtractedEntity :=
  { node_id := "b", node_type := .EMOTION, label := "B", context := none }

def rawWork : RawEntity :=
  { node_id := some "work", node_type := some "topic", label := some "Work",
    context := none }

def rawAnxiety : RawEntity :=
  { node_id := some "anxiety", node_type := some "emotion",
    label := some "Anxiety", context := none }

def dbEmpty : Db := { nodes := [], edges := [], nextId := 1 }

/-- One freshly extracted entity, embeddings succeed, no related nodes. -/
def envC6 : PipelineEnv :=
  { llm := .functionCall (.parsed [rawWork]),
    getEmbedding := fun _ => some [1], findRelated := fun _ _ => [] }

/-- Two freshly extracted entities, embeddings succeed, no related nodes. -/
def envC8 : PipelineEnv :=
  { llm := .functionCall (.parsed [rawWork, rawAnxiety]),
    getEmbedding := fun _ => some [1], findRelated := fun _ _ => [] }

/-- An extraction environment whose chat-completions call raises. -/
def envRaise : PipelineEnv :=
  { llm := .llmRaise, getEmbedding := fun _ => none,
    findRelated := fun _ _ => [] }

/-- A raw entity missing its required `node_id` key (skipped by the
per-entity `except` in `extract`). -/
def rawBad : RawEntity :=
  { node_id := none, node_type := some "topic", label := some "Bad",
    context := none }

/-- Relation between a pipeline state and a later pipeline state used to
track broadcast/embedding-call counts across the entity loop: batch
broadcasts and batch embedding calls never happen, `node_added` /
`edge_added` broadcasts grow exactly with `nodesAdded` / `edgesAdded`,
and each added node required at least one single-label embedding call. -/
def evInv (st st2 : BuildState) : Prop :=
  countBatchEv st2.events = countBatchEv st.events ∧
  countEmbedBatchEv st2.events = countEmbedBatchEv st.events ∧
  countNodeAddedEv st2.events + st.nodesAdded.length
    = countNodeAddedEv st.events + st2.nodesAdded.length ∧
  countEdgeAddedEv st2.events + st.edgesAdded.length
    = countEdgeAddedEv st.events + st2.edgesAdded.length ∧
  countEmbedSingleEv st2.events + st.nodesAdded.length
    ≥ countEmbedSingleEv st.events + st2.nodesAdded.length

lemma dotp_nil_right (a : List ℝ) : dotp a [] = 0 := by
  cases a <;> simp [dotp]

lemma dotp_cons (x y : ℝ) (a b : List ℝ) :
    dotp (x :: a) (y :: b) = x * y + dotp a b := by
  simp [dotp]

lemma dotp_self_nonneg (a : List ℝ) : 0 ≤ dotp a a := by
  induction a with
  | nil => simp [dotp]
  | cons x xs ih =>
      rw [dotp_cons]
      have hx : 0 ≤ x * x := mul_self_nonneg x
      linarith

lemma dotp_self_pos {a : List ℝ} {x : ℝ} (hx : x ∈ a) (hne : x ≠ 0) :
    0 < dotp a a := by
  induction a with
  | nil => cases hx
  | cons y ys ih =>
      rw [dotp_cons]
      rcases List.mem_cons.mp hx with h | h
      · have hy : 0 < y * y := by
          subst h; exact mul_self_pos.mpr hne
        have := dotp_self_nonneg ys
        linarith
      · have := ih h
        have hy : 0 ≤ y * y := mul_self_nonneg y
        linarith

/-- Cauchy-Schwarz for list dot products. -/
lemma dotp_sq_le (a b : List ℝ) :
    dotp a b ^ 2 ≤ dotp a a * dotp b b := by
  induction a generalizing b with
  | nil => simp [dotp]
  | cons x xs ih =>
      cases b with
      | nil => simp [dotp_nil_right, dotp, mul_nonneg (dotp_self_nonneg (x :: xs))]
      | cons y ys =>
          have hA : 0 ≤ dotp xs xs := dotp_self_nonneg xs
          have hB : 0 ≤ dotp ys ys := dotp_self_nonneg ys
          have hd := ih ys
          rw [dotp_cons, dotp_cons, dotp_cons]
          rcases hB.eq_or_lt with hB0 | hBpos
          · have h1 : dotp xs ys ^ 2 ≤ 0 := by
              have := hd; rw [← hB0] at this; simpa using this
            have hsq : dotp xs ys ^ 2 = 0 := le_antisymm h1 (sq_nonneg _)
            have hd0 : dotp xs ys = 0 := by
              exact pow_eq_zero_iff two_ne_zero |>.mp hsq
            rw [hd0, ← hB0]
            nlinarith [mul_nonneg hA (mul_self_nonneg y), sq_nonneg (x * y)]
          · nlinarith [sq_nonneg (x * dotp ys ys - y * dotp xs ys),
                       mul_nonneg (add_nonneg (mul_self_nonneg y) hB)
                         (sub_nonneg.mpr hd), hBpos]

lemma norml_nonneg (a : List ℝ) : 0 ≤ norml a := Real.sqrt_nonneg _

lemma norml_mul_self (a : List ℝ) : norml a * norml a = dotp a a :=
  Real.mul_self_sqrt (dotp_self_nonneg a)

lemma abs_dotp_le (a b : List ℝ) : |dotp a b| ≤ norml a * norml b := by
  have h1 : |dotp a b| = Real.sqrt (dotp a b ^ 2) := by
    rw [Real.sqrt_sq_eq_abs]
  rw [h1]
  calc Real.sqrt (dotp a b ^ 2) ≤ Real.sqrt (dotp a a * dotp b b) :=
        Real.sqrt_le_sqrt (dotp_sq_le a b)
    _ = norml a * norml b := by
        rw [Real.sqrt_mul (dotp_self_nonneg a)]; rfl

lemma cosine_similarity_bounds (a b : List ℝ) :
    0 ≤ cosine_similarity a b ∧ cosine_similarity a b ≤ 1 := by
  unfold cosine_similarity
  split
  · norm_num
  · rename_i h
    push_neg at h
    obtain ⟨ha, hb⟩ := h
    have hapos : 0 < norml a := lt_of_le_of_ne (norml_nonneg a) (Ne.symm ha)
    have hbpos : 0 < norml b := lt_of_le_of_ne (norml_nonneg b) (Ne.symm hb)
    have hm : 0 < norml a * norml b := mul_pos hapos hbpos
    have habs := abs_dotp_le a b
    have h1 : dotp a b ≤ norml a * norml b := (abs_le.mp habs).2
    have h2 : -(norml a * norml b) ≤ dotp a b := (abs_le.mp habs).1
    have hle : dotp a b / (norml a * norml b) ≤ 1 := (div_le_one hm).mpr h1
    have hge : -1 ≤ dotp a b / (norml a * norml b) := by
      rw [le_div_iff hm]; linarith
    constructor <;> linarith

lemma cosine_similarity_self {a : List ℝ} (h : ∃ x ∈ a, x ≠ 0) :
    cosine_similarity a a = 1 := by
  obtain ⟨x, hx, hne⟩ := h
  have hpos : 0 < dotp a a := dotp_self_pos hx hne
  have hnpos : 0 < norml a := Real.sqrt_pos.mpr hpos
  unfold cosine_similarity
  rw [if_neg (by push_neg; exact ⟨ne_of_gt hnpos, ne_of_gt hnpos⟩)]
  rw [norml_mul_self, div_self (ne_of_gt hpos)]
  norm_num

/-- Claim C4: for equal-length vectors, `cosine_similarity` is the standard
cosine remapped to [0,1] via `(cos + 1) / 2`, so the result lies in
[0.0, 1.0]; a zero-norm argument yields exactly 0.0 with no error; and for
every non-zero vector `a`, `cosine_similarity a a = 1.0`. -/
theorem C4_cosine_similarity_spec (a b : List ℝ) (hab : a.length = b.length) :
    (0 ≤ cosine_similarity a b ∧ cosine_similarity a b ≤ 1) ∧
    (norml a = 0 ∨ norml b = 0 → cosine_similarity a b = 0) ∧
    ((∃ x ∈ a, x ≠ 0) → cosine_similarity a a = 1) := by
  refine ⟨cosine_similarity_bounds a b, ?_, fun h => cosine_similarity_self h⟩
  intro h
  unfold cosine_similarity
  rw [if_pos h]

/-- Witness for C4 at the concrete vectors [1,0], [0,1] and [0,0]. -/
theorem C4_cosine_similarity_spec_witness :
    (0 ≤ cosine_similarity [(1 : ℝ), 0] [0, 1] ∧
      cosine_similarity [(1 : ℝ), 0] [0, 1] ≤ 1) ∧
    cosine_similarity [(0 : ℝ), 0] [0, 1] = 0 ∧
    cosine_similarity [(1 : ℝ), 0] [1, 0] = 1 := by
  have hz : norml [(0 : ℝ), 0] = 0 := by
    simp [norml, dotp]
  refine ⟨(C4_cosine_similarity_spec [1, 0] [0, 1] rfl).1,
          (C4_cosine_similarity_spec [0, 0] [0, 1] rfl).2.1 (Or.inl hz),
          (C4_cosine_similarity_spec [1, 0] [1, 0] rfl).2.2 ?_⟩
  exact ⟨1, by simp, one_ne_zero⟩

/-! ## Scheduler claims (C2, C7, C9) -/

lemma retrySleeps_append (l1 l2 : List Act) :
    retrySleeps (l1 ++ l2) = retrySleeps l1 ++ retrySleeps l2 := by
  simp [retrySleeps, List.filterMap_append]

lemma getLast?_append_singleton {α : Type} (l : List α) (a : α) :
    (l ++ [a]).getLast? = some a := by
  rw [List.getLast?_eq_head?_reverse, List.reverse_append]
  rfl

lemma betweenness_tick_eq (ok : Bool) (rest : List BLoopEvent) :
    betweenness_background_task (.tick ok :: rest)
      = ([Act.sleep 60, Act.bTick ok] ++ (betweenness_background_task rest).1,
         (betweenness_background_task rest).2) := rfl

lemma pagerankLoopAux_tick_ok (retries : List Bool) (rest : List LoopEvent) :
    pagerankLoopAux retries (.tick .ok :: rest)
      = ([Act.sleep 10, Act.pTick 5] ++ (pagerankLoopAux retries rest).1,
         (pagerankLoopAux retries rest).2) := rfl

lemma pagerank_task_ok_eq (events : List LoopEvent) (retries : List Bool) :
    pagerank_background_task .ok events retries
      = if (pagerankLoopAux retries events).2 then
          { trace := [.addActive, .pTick 20] ++ (pagerankLoopAux retries events).1
              ++ [.discardActive],
            stillActive := false, finished := true }
        else
          { trace := [.addActive, .pTick 20] ++ (pagerankLoopAux retries events).1,
            stillActive := true, finished := false } := rfl

lemma retrySleeps_pagerankRetryActs (outcomes : List Bool) :
    retrySleeps (pagerankRetryActs outcomes) = [1]
      ∨ retrySleeps (pagerankRetryActs outcomes) = [1, 2]
      ∨ retrySleeps (pagerankRetryActs outcomes) = [1, 2, 4] := by
  cases h0 : outcomes.getD 0 false <;> cases h1 : outcomes.getD 1 false <;>
    cases h2 : outcomes.getD 2 false <;>
      simp only [List.getD_eq_getElem?_getD] at h0 h1 h2 <;>
      simp [pagerankRetryActs, pagerankRetryActsAux, retrySleeps, h0, h1, h2,
            pagerankRetryDelay]

lemma retrySleeps_betweenness_eq_nil (events : List BLoopEvent)
    (h : ∀ b, BLoopEvent.bodyRaise b ∉ events) :
    retrySleeps (betweenness_background_task events).1 = [] := by
  induction events with
  | nil => rfl
  | cons e rest ih =>
      have hrest : ∀ b, BLoopEvent.bodyRaise b ∉ rest :=
        fun b hb => h b (List.mem_cons_of_mem _ hb)
      cases e with
      | stopBeforeGuard => rfl
      | stopDuringSleep => simp [betweenness_background_task, retrySleeps]
      | cancelInSleep => rfl
      | bodyRaise b => exact absurd (List.mem_cons_self _ _) (h b)
      | tick ok =>
          rw [betweenness_tick_eq]
          show retrySleeps ([Act.sleep 60, Act.bTick ok]
            ++ (betweenness_background_task rest).1) = []
          rw [retrySleeps_append, ih hrest]
          rfl

lemma pagerankLoopAux_replicate_raise (retries : List Bool) (n : ℕ)
    (post : List LoopEvent) :
    pagerankLoopAux retries
        (List.replicate n (.tick .ok) ++ .tick .tickRaise :: post)
      = ((List.replicate n [Act.sleep 10, Act.pTick 5]).join
          ++ [Act.sleep 10] ++ pagerankRetryActs retries, true) := by
  induction n with
  | zero => simp [pagerankLoopAux]
  | succ k ih =>
      rw [List.replicate_succ, List.cons_append, pagerankLoopAux_tick_ok, ih]
      simp [List.replicate_succ]

/-- Claim C2 counterexample: starting the background algorithms twice for
the same session from a task-free state spawns TWO Tier-2 and TWO Tier-3
tasks — `start_background_algorithms` has no duplicate guard, refuting
"the second start must not spawn duplicate loops". -/
theorem C2_counterexample :
    pagerankTaskCount (start_background_algorithms "s"
        (start_background_algorithms "s"
          { active_sessions := [], tasks := [] })) "s" = 2 ∧
    betweennessTaskCount (start_background_algorithms "s"
        (start_background_algorithms "s"
          { active_sessions := [], tasks := [] })) "s" = 2 ∧
    ¬ pagerankTaskCount (start_background_algorithms "s"
        (start_background_algorithms "s"
          { active_sessions := [], tasks := [] })) "s" = 1 := by
  decide

/-- Claim C2, amended: every `start_background_algorithms` call
unconditionally spawns one fresh Tier-2 and one fresh Tier-3 task, so two
successive starts without a stop leave two of each for the session. -/
theorem C2_amended_start_always_spawns (st : AlgoState) (sid : String) :
    pagerankTaskCount (start_background_algorithms sid st) sid
        = pagerankTaskCount st sid + 1 ∧
    betweennessTaskCount (start_background_algorithms sid st) sid
        = betweennessTaskCount st sid + 1 ∧
    pagerankTaskCount (start_background_algorithms sid
        (start_background_algorithms sid st)) sid
        = pagerankTaskCount st sid + 2 ∧
    betweennessTaskCount (start_background_algorithms sid
        (start_background_algorithms sid st)) sid
        = betweennessTaskCount st sid + 2 := by
  simp [start_background_algorithms, pagerankTaskCount, betweennessTaskCount,
        List.countP_append, List.countP_cons]

/-- Claim C7 counterexample: after one failed Tier-2 tick the loop runs
its 1s/2s/4s retries and then TERMINATES (discarding the session) — the
scheduled next tick event is never consumed, refuting "the loop ... falls
through to its normal sleep/tick cycle" and "remains alive".  Also, a
failed Tier-3 computation produces no retry at all (it is caught inside
`update_betweenness_streaming`), refuting the 5s/10s/15s retry behaviour
for Tier-3 computation failures. -/
theorem C7_counterexample :
    (pagerank_background_task .ok [.tick .tickRaise, .tick .ok]
        [false, false, false]).trace
      = [.addActive, .pTick 20, .sleep 10,
         .retrySleep 1, .pTick 5, .retrySleep 2, .pTick 5,
         .retrySleep 4, .pTick 5, .discardActive] ∧
    (pagerank_background_task .ok [.tick .tickRaise, .tick .ok]
        [false, false, false]).finished = true ∧
    (betweenness_background_task [.tick false, .tick true]).1
      = [.sleep 60, .bTick false, .sleep 60, .bTick true] ∧
    retrySleeps (betweenness_background_task [.tick false, .tick true]).1
      = [] := by
  decide

/-- Claim C7, amended: a raising Tier-2 tick leaves the tick loop into a
bounded retry sequence with exponential delays (a non-empty initial run
of 1s, 2s, 4s — at most 3 attempts), after which the task terminates and
discards the session, regardless of retry success; it does not return to
its sleep/tick cycle.  A Tier-3 computation failure never reaches the
Tier-3 retry handler (the computation catches internally and returns 0),
so the Tier-3 loop continues its normal cycle with no backoff sleeps. -/
theorem C7_amended_retry_then_terminate (n : ℕ) (post : List LoopEvent)
    (retries : List Bool) (events : List BLoopEvent)
    (hnb : ∀ b, BLoopEvent.bodyRaise b ∉ events) :
    pagerank_background_task .ok
        (List.replicate n (.tick .ok) ++ .tick .tickRaise :: post) retries
      = { trace := [.addActive, .pTick 20]
            ++ (List.replicate n [Act.sleep 10, Act.pTick 5]).join
            ++ [.sleep 10] ++ pagerankRetryActs retries ++ [.discardActive],
          stillActive := false, finished := true } ∧
    (retrySleeps (pagerankRetryActs retries) = [1]
      ∨ retrySleeps (pagerankRetryActs retries) = [1, 2]
      ∨ retrySleeps (pagerankRetryActs retries) = [1, 2, 4]) ∧
    retrySleeps (betweenness_background_task events).1 = [] := by
  refine ⟨?_, retrySleeps_pagerankRetryActs retries,
          retrySleeps_betweenness_eq_nil events hnb⟩
  simp [pagerank_background_task, pagerankLoopAux_replicate_raise]

/-- Witness for C7 at the concrete schedule with an immediately failing
tick, no retry outcomes provided (all retries fail) and one failed
Tier-3 computation. -/
theorem C7_amended_retry_then_terminate_witness :
    pagerank_background_task .ok [.tick .tickRaise] []
      = { trace := [.addActive, .pTick 20, .sleep 10,
           .retrySleep 1, .pTick 5, .retrySleep 2, .pTick 5,
           .retrySleep 4, .pTick 5, .discardActive],
          stillActive := false, finished := true } ∧
    retrySleeps (pagerankRetryActs []) = [1, 2, 4] ∧
    retrySleeps (betweenness_background_task [.tick false]).1 = [] := by
  have h := C7_amended_retry_then_terminate 0 [] [] [.tick false]
    (by intro b hb; simp at hb)
  refine ⟨?_, ?_, h.2.2⟩
  · have h1 := h.1
    simpa using h1
  · rcases h.2.1 with h2 | h2 | h2 <;> first
      | exact h2
      | (exfalso; revert h2; decide)

/-- Claim C9 counterexample: a raise (or cancellation) in the FIRST cold
PageRank run happens before the `try` block is entered, so the task
terminates by an unrecovered error WITHOUT the `finally` discard: the
session id stays in `active_sessions`, and the Tier-3 loop keeps ticking
instead of exiting — refuting "whenever the Tier-2 task terminates ...
the session id is removed" and "the Tier-3 loop never remains active
after the Tier-2 loop has exited". -/
theorem C9_counterexample :
    (pagerank_background_task .tickRaise [] []).finished = true ∧
    (pagerank_background_task .tickRaise [] []).stillActive = true ∧
    Act.discardActive ∉ (pagerank_background_task .tickRaise [] []).trace ∧
    (betweenness_background_task [.tick true]).2 = false := by
  decide

/-- Claim C9, amended: once the Tier-2 task has entered its main loop
(cold run succeeded), every terminating path runs the `finally` discard,
removing the session from the active set, and a Tier-3 loop whose next
membership check finds the id absent exits immediately without running
another tick; only a raise/cancel in the initial cold run (outside the
`try`) leaks the id and leaves Tier-3 running. -/
theorem C9_amended_discard_after_loop_entered (events : List LoopEvent)
    (retries : List Bool)
    (hfin : (pagerank_background_task .ok events retries).finished = true) :
    (pagerank_background_task .ok events retries).stillActive = false ∧
    (pagerank_background_task .ok events retries).trace.getLast?
      = some .discardActive ∧
    (∀ rest, betweenness_background_task (.stopBeforeGuard :: rest)
      = ([], true)) ∧
    (∀ rest, betweenness_background_task (.stopDuringSleep :: rest)
      = ([.sleep 60], true)) := by
  have hb : (pagerankLoopAux retries events).2 = true := by
    by_contra hb
    rw [Bool.not_eq_true] at hb
    rw [pagerank_task_ok_eq, hb] at hfin
    simp at hfin
  refine ⟨?_, ?_, fun rest => rfl, fun rest => rfl⟩
  · rw [pagerank_task_ok_eq, hb]
    rfl
  · rw [pagerank_task_ok_eq, hb]
    simp only [if_true]
    rw [getLast?_append_singleton]

/-- Witness for C9 at the concrete schedule where `stop` runs before the
first guard check. -/
theorem C9_amended_discard_witness :
    (pagerank_background_task .ok [.stopBeforeGuard] []).stillActive = false ∧
    (pagerank_background_task .ok [.stopBeforeGuard] []).trace.getLast?
      = some .discardActive ∧
    betweenness_background_task [.stopBeforeGuard] = ([], true) ∧
    betweenness_background_task [.stopDuringSleep] = ([.sleep 60], true) := by
  have h := C9_amended_discard_after_loop_entered [.stopBeforeGuard] []
    (by decide)
  exact ⟨h.1, h.2.1, h.2.2.1 [], h.2.2.2 []⟩

/-! ## Graph store claims (C5, C3) -/

lemma find?_map_pres {α : Type} (p : α → Bool) (f : α → α)
    (hp : ∀ x, p (f x) = p x) (l : List α) :
    (l.map f).find? p = (l.find? p).map f := by
  induction l with
  | nil => rfl
  | cons x xs ih =>
      cases hx : p x with
      | true => simp [List.find?_cons, hp, hx]
      | false => simp [List.find?_cons, hp, hx, ih]

lemma find?_append_none {α : Type} (p : α → Bool) (l1 l2 : List α)
    (h : l1.find? p = none) : (l1 ++ l2).find? p = l2.find? p := by
  induction l1 with
  | nil => rfl
  | cons x xs ih =>
      cases hx : p x with
      | true => simp [List.find?_cons, hx] at h
      | false =>
          rw [List.find?_cons_of_neg _ (by simp [hx])] at h
          rw [List.cons_append, List.find?_cons_of_neg _ (by simp [hx])]
          exact ih h

lemma countP_eq_zero_find?_none {α : Type} (p : α → Bool) (l : List α)
    (h : l.countP p = 0) : l.find? p = none := by
  rw [List.find?_eq_none]
  intro x hx
  rw [List.countP_eq_zero] at h
  simp [h x hx]

lemma setwd_idem (s n : String) (wd : ℚ) (l : List NEntity) :
    ((l.map (fun x => if (x.session_id == s && x.node_id == n) = true then
        { x with weighted_degree := wd } else x)).map
      (fun x => if (x.session_id == s && x.node_id == n) = true then
        { x with weighted_degree := wd } else x))
    = l.map (fun x => if (x.session_id == s && x.node_id == n) = true then
        { x with weighted_degree := wd } else x) := by
  rw [List.map_map]
  refine List.map_congr_left ?_
  intro x _
  by_cases hx : (x.session_id == s && x.node_id == n) = true
  · simp [Function.comp, hx]
  · simp [Function.comp, hx]

/-- Claim C5: `update_weighted_degree` recomputes the weighted degree of a
node as the full sum of `similarity_score` over its currently incident
edges (0 when it has none), stores that value on the node and returns it;
a second call with unchanged edges returns the same value and leaves the
state fixed (idempotent recompute, not an increment). -/
theorem C5_update_weighted_degree_recompute (g : NeoGraph) (s n : String)
    (hex : (findEntity g s n).isSome = true) :
    (update_weighted_degree g s n).2 = incidentSum g s n ∧
    (findEntity (update_weighted_degree g s n).1 s n).map
        (fun e => e.weighted_degree) = some (incidentSum g s n) ∧
    (g.edges.filter (fun r => incidentTo r s n) = [] →
      (update_weighted_degree g s n).2 = 0) ∧
    update_weighted_degree (update_weighted_degree g s n).1 s n
      = ((update_weighted_degree g s n).1, incidentSum g s n) := by
  obtain ⟨e0, he⟩ := Option.isSome_iff_exists.mp hex
  have he' : g.entities.find? (fun e => e.session_id == s && e.node_id == n)
      = some e0 := he
  have hpe0 : (e0.session_id == s && e0.node_id == n) = true := by
    have h := List.find?_some he'
    exact h
  have hq : update_weighted_degree g s n
      = ({ g with entities := g.entities.map (fun x =>
            if x.session_id == s && x.node_id == n then
              { x with weighted_degree := incidentSum g s n }
            else x) }, incidentSum g s n) := by
    unfold update_weighted_degree
    have hee : findEntity g s n = some e0 := he'
    rw [hee]
  have hfind1 : findEntity (update_weighted_degree g s n).1 s n
      = some { e0 with weighted_degree := incidentSum g s n } := by
    rw [hq]
    unfold findEntity
    rw [find?_map_pres _ _ (fun x => by
      by_cases hx : (x.session_id == s && x.node_id == n) = true
      · rw [if_pos hx]
      · rw [if_neg hx])]
    rw [he']
    show some (if (e0.session_id == s && e0.node_id == n) = true then
        { e0 with weighted_degree := incidentSum g s n } else e0)
      = some { e0 with weighted_degree := incidentSum g s n }
    rw [if_pos hpe0]
  have hq1 : (update_weighted_degree g s n).1
      = { g with entities := g.entities.map (fun x =>
          if (x.session_id == s && x.node_id == n) = true then
            { x with weighted_degree := incidentSum g s n }
          else x) } := by
    rw [hq]
  refine ⟨by rw [hq], ?_, ?_, ?_⟩
  · rw [hfind1]
    rfl
  · intro hnil
    rw [hq]
    simp [incidentSum, hnil]
  · have hfind1a : findEntity
        ({ g with entities := g.entities.map (fun x =>
            if (x.session_id == s && x.node_id == n) = true then
              { x with weighted_degree := incidentSum g s n }
            else x) }) s n
        = some { e0 with weighted_degree := incidentSum g s n } := by
      rw [← hq1, hfind1]
    rw [hq1]
    have hq2 : update_weighted_degree
        ({ g with entities := g.entities.map (fun x =>
            if (x.session_id == s && x.node_id == n) = true then
              { x with weighted_degree := incidentSum g s n }
            else x) }) s n
        = ({ g with entities := (g.entities.map (fun x =>
              if (x.session_id == s && x.node_id == n) = true then
                { x with weighted_degree := incidentSum g s n }
              else x)).map (fun x =>
              if (x.session_id == s && x.node_id == n) = true then
                { x with weighted_degree := incidentSum g s n }
              else x) },
           incidentSum g s n) := by
      unfold update_weighted_degree
      rw [hfind1a]
      rfl
    rw [hq2, setwd_idem]

/-- Witness for C5 on a concrete graph where node `a` has incident edges
with scores 1/2 and 1/4. -/
theorem C5_update_weighted_degree_witness :
    (update_weighted_degree gC5 "s" "a").2 = incidentSum gC5 "s" "a" ∧
    incidentSum gC5 "s" "a" = 3 / 4 ∧
    update_weighted_degree (update_weighted_degree gC5 "s" "a").1 "s" "a"
      = ((update_weighted_degree gC5 "s" "a").1, incidentSum gC5 "s" "a") := by
  have h := C5_update_weighted_degree_recompute gC5 "s" "a" (by rfl)
  refine ⟨h.1, ?_, h.2.2.2⟩
  simp [incidentSum, gC5, incidentTo, entA, entB]
  norm_num

/-- Claim C3: similarity-edge creation is commutative and idempotent, both
at the Neo4j store (`create_similarity_edge`, undirected `MERGE`) and in
the builder edge step (two-orientation existence check before create):
from a state with no edge between distinct existing entities `a` and `b`,
the first creation stores exactly one edge carrying its score, and any
repeated attempt — in either orientation, even with a different score —
is a no-op leaving that single edge and its score untouched. -/
theorem C3_edge_creation_commutative_idempotent (g : NeoGraph)
    (s a b : String) (sc sc2 : ℚ) (st : BuildState) (rt : Bool)
    (hab : a ≠ b)
    (hA : (findEntity g s a).isSome = true)
    (hB : (findEntity g s b).isSome = true)
    (hzero : g.edges.countP (fun r => edgeMatches r s a b) = 0)
    (hdb : st.db.edges.countP
      (fun e => e.sessionId == s &&
        ((e.sourceNodeId == a && e.targetNodeId == b)
          || (e.sourceNodeId == b && e.targetNodeId == a))) = 0) :
    ((create_similarity_edge g s a b sc).1.edges.countP
        (fun r => edgeMatches r s a b) = 1 ∧
     create_similarity_edge g s a b sc
       = ({ g with edges := g.edges
             ++ [{ session_id := s, source := a, target := b,
                   similarity_score := sc }] },
          some { session_id := s, source := a, target := b,
                 similarity_score := sc }) ∧
     create_similarity_edge (create_similarity_edge g s a b sc).1 s a b sc2
       = ((create_similarity_edge g s a b sc).1,
          some { session_id := s, source := a, target := b,
                 similarity_score := sc }) ∧
     create_similarity_edge (create_similarity_edge g s a b sc).1 s b a sc2
       = ((create_similarity_edge g s a b sc).1,
          some { session_id := s, source := a, target := b,
                 similarity_score := sc })) ∧
    ((builderEdgeStep rt s a st (b, sc)).db.edges.countP
        (fun e => e.sessionId == s &&
          ((e.sourceNodeId == a && e.targetNodeId == b)
            || (e.sourceNodeId == b && e.targetNodeId == a))) = 1 ∧
     builderEdgeStep rt s a (builderEdgeStep rt s a st (b, sc)) (b, sc2)
       = builderEdgeStep rt s a st (b, sc) ∧
     builderEdgeStep rt s b (builderEdgeStep rt s a st (b, sc)) (a, sc2)
       = builderEdgeStep rt s a st (b, sc)) := by
  have hfnone : g.edges.find? (fun r => edgeMatches r s a b) = none :=
    countP_eq_zero_find?_none _ _ hzero
  have hnewAB : edgeMatches ⟨s, a, b, sc⟩ s a b = true := by
    simp [edgeMatches]
  have hmatchsym : (fun r => edgeMatches r s b a)
      = (fun r => edgeMatches r s a b) := by
    funext r
    unfold edgeMatches
    rw [Bool.or_comm]
  have h1 : create_similarity_edge g s a b sc
      = ({ g with edges := g.edges ++ [⟨s, a, b, sc⟩] }, some ⟨s, a, b, sc⟩) := by
    unfold create_similarity_edge
    rw [if_pos (by rw [hA, hB]; rfl), hfnone]
  have hcond : ∀ (g2 : NeoGraph) (x y : String), g2.entities = g.entities →
      (findEntity g s x).isSome = true → (findEntity g s y).isSome = true →
      ((findEntity g2 s x).isSome && (findEntity g2 s y).isSome) = true := by
    intro g2 x y hents hx hy
    unfold findEntity at hx hy ⊢
    rw [hents, hx, hy]
    rfl
  have hfind1 : (g.edges ++ [(⟨s, a, b, sc⟩ : NEdge)]).find?
      (fun r => edgeMatches r s a b) = some ⟨s, a, b, sc⟩ := by
    rw [find?_append_none _ _ _ hfnone]
    simp [List.find?_cons, hnewAB]
  have hfind1rev : (g.edges ++ [(⟨s, a, b, sc⟩ : NEdge)]).find?
      (fun r => edgeMatches r s b a) = some ⟨s, a, b, sc⟩ := by
    rw [hmatchsym]
    exact hfind1
  constructor
  · refine ⟨?_, h1, ?_, ?_⟩
    · rw [h1]
      show (g.edges ++ [(⟨s, a, b, sc⟩ : NEdge)]).countP
        (fun r => edgeMatches r s a b) = 1
      rw [List.countP_append, hzero]
      simp [List.countP_cons, hnewAB]
    · rw [h1]
      show create_similarity_edge { g with edges := g.edges ++ [⟨s, a, b, sc⟩] }
          s a b sc2 = _
      have hc : ((findEntity { g with edges := g.edges ++ [⟨s, a, b, sc⟩] } s a).isSome
          && (findEntity { g with edges := g.edges ++ [⟨s, a, b, sc⟩] } s b).isSome)
          = true := hcond _ a b rfl hA hB
      unfold create_similarity_edge
      rw [if_pos hc]
      rw [show ({ g with edges := g.edges ++ [⟨s, a, b, sc⟩] } : NeoGraph).edges
            = g.edges ++ [⟨s, a, b, sc⟩] from rfl, hfind1]
    · rw [h1]
      show create_similarity_edge { g with edges := g.edges ++ [⟨s, a, b, sc⟩] }
          s b a sc2 = _
      have hc : ((findEntity { g with edges := g.edges ++ [⟨s, a, b, sc⟩] } s b).isSome
          && (findEntity { g with edges := g.edges ++ [⟨s, a, b, sc⟩] } s a).isSome)
          = true := hcond _ b a rfl hB hA
      unfold create_similarity_edge
      rw [if_pos hc]
      rw [show ({ g with edges := g.edges ++ [⟨s, a, b, sc⟩] } : NeoGraph).edges
            = g.edges ++ [⟨s, a, b, sc⟩] from rfl, hfind1rev]
  · have hdbnone : st.db.edges.find?
        (fun e => e.sessionId == s &&
          ((e.sourceNodeId == a && e.targetNodeId == b)
            || (e.sourceNodeId == b && e.targetNodeId == a))) = none :=
      countP_eq_zero_find?_none _ _ hdb
    have hnewDb : (fun (e : GEdge) => e.sessionId == s &&
        ((e.sourceNodeId == a && e.targetNodeId == b)
          || (e.sourceNodeId == b && e.targetNodeId == a))) ⟨s, a, b, sc⟩
        = true := by
      simp
    have hdbsym : (fun (e : GEdge) => e.sessionId == s &&
        ((e.sourceNodeId == b && e.targetNodeId == a)
          || (e.sourceNodeId == a && e.targetNodeId == b)))
        = (fun (e : GEdge) => e.sessionId == s &&
          ((e.sourceNodeId == a && e.targetNodeId == b)
            || (e.sourceNodeId == b && e.targetNodeId == a))) := by
      funext e
      rw [Bool.or_comm]
    have hs1 : builderEdgeStep rt s a st (b, sc)
        = { st with
            db := { st.db with edges := st.db.edges ++ [⟨s, a, b, sc⟩] },
            edgesAdded := st.edgesAdded ++ [⟨s, a, b, sc⟩],
            events := st.events ++ (if rt then [.edgeAdded a b] else []) } := by
      unfold builderEdgeStep
      rw [if_neg (by unfold edgeExists; rw [hdbnone]; simp)]
    have hfinddb : (st.db.edges ++ [(⟨s, a, b, sc⟩ : GEdge)]).find?
        (fun e => e.sessionId == s &&
          ((e.sourceNodeId == a && e.targetNodeId == b)
            || (e.sourceNodeId == b && e.targetNodeId == a)))
        = some ⟨s, a, b, sc⟩ := by
      rw [find?_append_none _ _ _ hdbnone]
      simp [List.find?_cons, hnewDb]
    refine ⟨?_, ?_, ?_⟩
    · rw [hs1]
      show (st.db.edges ++ [(⟨s, a, b, sc⟩ : GEdge)]).countP _ = 1
      rw [List.countP_append, hdb]
      simp [List.countP_cons]
    · rw [hs1]
      unfold builderEdgeStep
      rw [if_pos (by unfold edgeExists
                     rw [show ({ st.db with edges := st.db.edges
                           ++ [(⟨s, a, b, sc⟩ : GEdge)] } : Db).edges
                         = st.db.edges ++ [⟨s, a, b, sc⟩] from rfl, hfinddb]
                     rfl)]
    · rw [hs1]
      unfold builderEdgeStep
      rw [if_pos (by unfold edgeExists
                     rw [show ({ st.db with edges := st.db.edges
                           ++ [(⟨s, a, b, sc⟩ : GEdge)] } : Db).edges
                         = st.db.edges ++ [⟨s, a, b, sc⟩] from rfl, hdbsym,
                         hfinddb]
                     rfl)]

/-- Witness for C3 on the concrete graph with entities `a`, `b`, no
edges, first score 1/2, repeat attempts with score 2/3. -/
theorem C3_edge_creation_witness :
    (create_similarity_edge gAB "s" "a" "b" (1/2)).1.edges.countP
        (fun r => edgeMatches r "s" "a" "b") = 1 ∧
    create_similarity_edge (create_similarity_edge gAB "s" "a" "b" (1/2)).1
        "s" "b" "a" (2/3)
      = ((create_similarity_edge gAB "s" "a" "b" (1/2)).1,
         some { session_id := "s", source := "a", target := "b",
                similarity_score := 1/2 }) := by
  have h := C3_edge_creation_commutative_idempotent gAB "s" "a" "b" (1/2) (2/3)
    stA true (by decide) (by rfl) (by rfl) (by rfl) (by rfl)
  exact ⟨h.1.1, h.1.2.2.2⟩

/-! ## Upsert claim (C1) -/

lemma builderEdgeStep_preserves_nodes (rt : Bool) (sid nid : String)
    (st : BuildState) (p : String × ℚ) :
    (builderEdgeStep rt sid nid st p).db.nodes = st.db.nodes := by
  unfold builderEdgeStep
  by_cases h : edgeExists st.db sid nid p.1 = true
  · rw [if_pos h]
  · rw [if_neg h]

lemma foldl_builderEdgeStep_nodes (rt : Bool) (sid nid : String)
    (related : List (String × ℚ)) (st : BuildState) :
    (related.foldl (builderEdgeStep rt sid nid) st).db.nodes = st.db.nodes := by
  induction related generalizing st with
  | nil => rfl
  | cons p rest ih =>
      rw [List.foldl_cons, ih, builderEdgeStep_preserves_nodes]

/-- Claim C1: an upsert for an existing `(session_id, node_id)` key leaves
the stored embedding and label unchanged and increments `mention_count` by
exactly 1; a first upsert creates the node with `mention_count = 1` —
both for the Neo4j `create_or_update_entity` (MERGE with `ON CREATE` /
`ON MATCH`) and for the upsert step of the Builder pipeline
(`processEntity`: Prisma update of `mentionCount` when the node exists,
create otherwise). -/
theorem C1_upsert_merge_semantics
    (g : NeoGraph) (s n nt lab : String) (emb : List ℚ) (ctx : Option String)
    (env : PipelineEnv) (rt : Bool) (sid : String) (st : BuildState)
    (ent : ExtractedEntity) (h1536 : emb.length = 1536) :
    (∀ e0, findEntity g s n = some e0 →
      ∃ g2, create_or_update_entity g s n nt lab emb ctx
          = .ok (g2, { e0 with mention_count := e0.mention_count + 1 }) ∧
        findEntity g2 s n
          = some { e0 with mention_count := e0.mention_count + 1 } ∧
        g2.edges = g.edges) ∧
    (findEntity g s n = none →
      ∃ g2 e1, create_or_update_entity g s n nt lab emb ctx = .ok (g2, e1) ∧
        findEntity g2 s n = some e1 ∧
        e1.mention_count = 1 ∧ e1.embedding = emb ∧ e1.label = lab) ∧
    (∀ n0, findNode st.db sid ent.node_id = some n0 →
      findNode (processEntity env rt sid st ent).db sid ent.node_id
          = some { n0 with mentionCount := n0.mentionCount + 1 } ∧
      (processEntity env rt sid st ent).db.edges = st.db.edges ∧
      (processEntity env rt sid st ent).nodesAdded = st.nodesAdded) ∧
    (∀ emb2, findNode st.db sid ent.node_id = none →
      env.getEmbedding ent.label = some emb2 →
      ∃ nd, findNode (processEntity env rt sid st ent).db sid ent.node_id
          = some nd ∧
        nd.mentionCount = 1 ∧ nd.embedding = some emb2 ∧
        nd.label = ent.label) := by
  have hdim : ¬ emb.length ≠ 1536 := by simp [h1536]
  refine ⟨?_, ?_, ?_, ?_⟩
  · intro e0 he
    have he' : g.entities.find? (fun e => e.session_id == s && e.node_id == n)
        = some e0 := he
    have hpe0 : (e0.session_id == s && e0.node_id == n) = true := by
      have h := List.find?_some he'
      exact h
    refine ⟨{ g with
        entities := g.entities.map (fun x =>
          if x.session_id == s && x.node_id == n then
            { x with mention_count := x.mention_count + 1 }
          else x) }, ?_, ?_, rfl⟩
    · unfold create_or_update_entity
      rw [if_neg hdim, he]
    · unfold findEntity
      rw [show ({ g with
          entities := g.entities.map (fun x =>
            if x.session_id == s && x.node_id == n then
              { x with mention_count := x.mention_count + 1 }
            else x) } : NeoGraph).entities
          = g.entities.map (fun x =>
            if x.session_id == s && x.node_id == n then
              { x with mention_count := x.mention_count + 1 }
            else x) from rfl]
      rw [find?_map_pres _ _ (fun x => by
        by_cases hx : (x.session_id == s && x.node_id == n) = true
        · rw [if_pos hx]
        · rw [if_neg hx]), he']
      show some (if (e0.session_id == s && e0.node_id == n) = true then
          { e0 with mention_count := e0.mention_count + 1 } else e0)
        = some { e0 with mention_count := e0.mention_count + 1 }
      rw [if_pos hpe0]
  · intro he
    have he' : g.entities.find? (fun e => e.session_id == s && e.node_id == n)
        = none := he
    have heq : create_or_update_entity g s n nt lab emb ctx
        = .ok ({ g with entities := g.entities
                  ++ [⟨s, n, nt, lab, emb, 1, ctx, 0, 0.15, 0⟩] },
               ⟨s, n, nt, lab, emb, 1, ctx, 0, 0.15, 0⟩) := by
      unfold create_or_update_entity
      rw [if_neg hdim, he]
    refine ⟨_, _, heq, ?_, rfl, rfl, rfl⟩
    unfold findEntity
    rw [show ({ g with entities := g.entities
          ++ [(⟨s, n, nt, lab, emb, 1, ctx, 0, 0.15, 0⟩ : NEntity)] } :
          NeoGraph).entities
        = g.entities ++ [⟨s, n, nt, lab, emb, 1, ctx, 0, 0.15, 0⟩] from rfl]
    rw [find?_append_none _ _ _ he']
    simp [List.find?_cons]
  · intro n0 hf
    have hf' : st.db.nodes.find?
        (fun m => m.sessionId == sid && m.nodeId == ent.node_id)
        = some n0 := hf
    have hpn0 : (n0.sessionId == sid && n0.nodeId == ent.node_id) = true := by
      have h := List.find?_some hf'
      exact h
    have heq : processEntity env rt sid st ent
        = { st with
            db := { st.db with
              nodes := st.db.nodes.map (fun m =>
                if m.id == n0.id then
                  { m with mentionCount := m.mentionCount + 1 }
                else m) } } := by
      unfold processEntity
      rw [hf]
    refine ⟨?_, by rw [heq], by rw [heq]⟩
    rw [heq]
    unfold findNode
    rw [show ({ st with
        db := { st.db with
          nodes := st.db.nodes.map (fun m =>
            if m.id == n0.id then
              { m with mentionCount := m.mentionCount + 1 }
            else m) } } : BuildState).db.nodes
        = st.db.nodes.map (fun m =>
            if m.id == n0.id then
              { m with mentionCount := m.mentionCount + 1 }
            else m) from rfl]
    rw [find?_map_pres _ _ (fun x => by
      by_cases hx : (x.id == n0.id) = true
      · rw [if_pos hx]
      · rw [if_neg hx]), hf']
    show some (if (n0.id == n0.id) = true then
        { n0 with mentionCount := n0.mentionCount + 1 } else n0)
      = some { n0 with mentionCount := n0.mentionCount + 1 }
    rw [if_pos (by simp)]
  · intro emb2 hf hemb
    have hf' : st.db.nodes.find?
        (fun m => m.sessionId == sid && m.nodeId == ent.node_id) = none := hf
    have hnodes : (processEntity env rt sid st ent).db.nodes
        = st.db.nodes ++ [⟨st.db.nextId, sid, ent.node_id, ent.node_type.value,
            ent.label, some emb2, prismaMentionCountDefault, ent.context⟩] := by
      unfold processEntity createEntityStep
      simp only [hf, hemb]
      rw [foldl_builderEdgeStep_nodes]
    refine ⟨⟨st.db.nextId, sid, ent.node_id, ent.node_type.value, ent.label,
        some emb2, prismaMentionCountDefault, ent.context⟩, ?_, rfl, rfl, rfl⟩
    unfold findNode
    rw [hnodes, find?_append_none _ _ _ hf']
    simp [List.find?_cons]

/-- Witness for C1: an existing-key upsert on concrete stores (Neo4j graph
`gAB`, builder state `stA`) bumps only the mention count; a first upsert
creates with mention count 1. -/
theorem C1_upsert_merge_semantics_witness :
    (∃ g2, create_or_update_entity gAB "s" "a" "TOPIC" "A2" emb1536 none
        = .ok (g2, { entA with mention_count := entA.mention_count + 1 }) ∧
      findEntity g2 "s" "a"
        = some { entA with mention_count := entA.mention_count + 1 } ∧
      g2.edges = gAB.edges) ∧
    (∃ g2 e1, create_or_update_entity gAB "s" "c" "TOPIC" "C" emb1536 none
        = .ok (g2, e1) ∧
      findEntity g2 "s" "c" = some e1 ∧
      e1.mention_count = 1 ∧ e1.embedding = emb1536 ∧ e1.label = "C") ∧
    (findNode (processEntity envSimple true "s" stA entityA).db "s" "a"
        = some { nodeA with mentionCount := nodeA.mentionCount + 1 } ∧
      (processEntity envSimple true "s" stA entityA).db.edges
        = stA.db.edges ∧
      (processEntity envSimple true "s" stA entityA).nodesAdded
        = stA.nodesAdded) ∧
    (∃ nd, findNode (processEntity envSimple true "s" stA entityB).db "s" "b"
        = some nd ∧
      nd.mentionCount = 1 ∧ nd.embedding = some [2] ∧ nd.label = "B") := by
  have hlen : emb1536.length = 1536 := by
    unfold emb1536
    exact List.length_replicate 1536 0
  have h1 := C1_upsert_merge_semantics gAB "s" "a" "TOPIC" "A2" emb1536 none
    envSimple true "s" stA entityA hlen
  have h2 := C1_upsert_merge_semantics gAB "s" "c" "TOPIC" "C" emb1536 none
    envSimple true "s" stA entityB hlen
  exact ⟨h1.1 entA rfl, h2.2.1 rfl, h1.2.2.1 nodeA rfl, h2.2.2.2 [2] rfl rfl⟩

/-! ## Broadcast batching and embedding-call claims (C6, C8) -/

lemma evInv_refl (st : BuildState) : evInv st st :=
  ⟨rfl, rfl, rfl, rfl, le_refl _⟩

lemma evInv_trans {st1 st2 st3 : BuildState} (h1 : evInv st1 st2)
    (h2 : evInv st2 st3) : evInv st1 st3 := by
  obtain ⟨a1, b1, c1, d1, e1⟩ := h1
  obtain ⟨a2, b2, c2, d2, e2⟩ := h2
  exact ⟨a2.trans a1, b2.trans b1, by omega, by omega, by omega⟩

lemma builderEdgeStep_counts (sid nid : String) (st : BuildState)
    (p : String × ℚ) :
    countBatchEv (builderEdgeStep true sid nid st p).events
      = countBatchEv st.events ∧
    countEmbedBatchEv (builderEdgeStep true sid nid st p).events
      = countEmbedBatchEv st.events ∧
    countNodeAddedEv (builderEdgeStep true sid nid st p).events
      = countNodeAddedEv st.events ∧
    countEmbedSingleEv (builderEdgeStep true sid nid st p).events
      = countEmbedSingleEv st.events ∧
    (builderEdgeStep true sid nid st p).nodesAdded = st.nodesAdded ∧
    countEdgeAddedEv (builderEdgeStep true sid nid st p).events
        + st.edgesAdded.length
      = countEdgeAddedEv st.events
        + (builderEdgeStep true sid nid st p).edgesAdded.length := by
  unfold builderEdgeStep
  by_cases h : edgeExists st.db sid nid p.1 = true
  · rw [if_pos h]
    exact ⟨rfl, rfl, rfl, rfl, rfl, rfl⟩
  · rw [if_neg h]
    refine ⟨?_, ?_, ?_, ?_, rfl, ?_⟩ <;>
      simp [countBatchEv, countEmbedBatchEv, countNodeAddedEv,
            countEmbedSingleEv, countEdgeAddedEv, List.countP_append,
            List.countP_cons] <;>
      omega

lemma foldl_edges_counts (sid nid : String) (related : List (String × ℚ))
    (st : BuildState) :
    countBatchEv ((related.foldl (builderEdgeStep true sid nid) st)).events
      = countBatchEv st.events ∧
    countEmbedBatchEv ((related.foldl (builderEdgeStep true sid nid) st)).events
      = countEmbedBatchEv st.events ∧
    countNodeAddedEv ((related.foldl (builderEdgeStep true sid nid) st)).events
      = countNodeAddedEv st.events ∧
    countEmbedSingleEv ((related.foldl (builderEdgeStep true sid nid) st)).events
      = countEmbedSingleEv st.events ∧
    (related.foldl (builderEdgeStep true sid nid) st).nodesAdded
      = st.nodesAdded ∧
    countEdgeAddedEv ((related.foldl (builderEdgeStep true sid nid) st)).events
        + st.edgesAdded.length
      = countEdgeAddedEv st.events
        + (related.foldl (builderEdgeStep true sid nid) st).edgesAdded.length := by
  induction related generalizing st with
  | nil => exact ⟨rfl, rfl, rfl, rfl, rfl, rfl⟩
  | cons p rest ih =>
      rw [List.foldl_cons]
      obtain ⟨b1, eb1, na1, es1, nd1, ed1⟩ := builderEdgeStep_counts sid nid st p
      obtain ⟨b2, eb2, na2, es2, nd2, ed2⟩ := ih (builderEdgeStep true sid nid st p)
      exact ⟨b2.trans b1, eb2.trans eb1, na2.trans na1, es2.trans es1,
             nd2.trans nd1, by omega⟩

lemma createEntityStep_counts (env : PipelineEnv) (sid : String)
    (st : BuildState) (ent : ExtractedEntity) (emb : List ℚ) :
    countBatchEv (createEntityStep env true sid st ent emb).events
      = countBatchEv st.events ∧
    countEmbedBatchEv (createEntityStep env true sid st ent emb).events
      = countEmbedBatchEv st.events ∧
    countEmbedSingleEv (createEntityStep env true sid st ent emb).events
      = countEmbedSingleEv st.events ∧
    countNodeAddedEv (createEntityStep env true sid st ent emb).events
      = countNodeAddedEv st.events + 1 ∧
    (createEntityStep env true sid st ent emb).nodesAdded.length
      = st.nodesAdded.length + 1 ∧
    countEdgeAddedEv (createEntityStep env true sid st ent emb).events
        + st.edgesAdded.length
      = countEdgeAddedEv st.events
        + (createEntityStep env true sid st ent emb).edgesAdded.length := by
  unfold createEntityStep
  dsimp only
  simp only [eq_self_iff_true, if_true]
  obtain ⟨b2, eb2, na2, es2, nd2, ed2⟩ := foldl_edges_counts sid ent.node_id
    (env.findRelated (ent.node_id, emb) st.existingData)
    ⟨⟨st.db.nodes ++ [⟨st.db.nextId, sid, ent.node_id, ent.node_type.value,
        ent.label, some emb, prismaMentionCountDefault, ent.context⟩],
      st.db.edges, st.db.nextId + 1⟩,
     st.nodesAdded ++ [⟨st.db.nextId, sid, ent.node_id, ent.node_type.value,
        ent.label, some emb, prismaMentionCountDefault, ent.context⟩],
     st.edgesAdded, st.existingData,
     st.events ++ [.nodeAdded ent.node_id]
       ++ [.processingStatus "linking" "Finding connections"]⟩
  dsimp only at b2 eb2 na2 es2 nd2 ed2
  refine ⟨?_, ?_, ?_, ?_, ?_, ?_⟩
  · rw [b2]
    simp [countBatchEv, List.countP_append, List.countP_cons]
  · rw [eb2]
    simp [countEmbedBatchEv, List.countP_append, List.countP_cons]
  · rw [es2]
    simp [countEmbedSingleEv, List.countP_append, List.countP_cons]
  · rw [na2]
    simp [countNodeAddedEv, List.countP_append, List.countP_cons]
  · rw [nd2]
    simp
  · have hE : countEdgeAddedEv (st.events ++ [Ev.nodeAdded ent.node_id]
        ++ [Ev.processingStatus "linking" "Finding connections"])
        = countEdgeAddedEv st.events := by
      simp [countEdgeAddedEv, List.countP_append, List.countP_cons]
    rw [hE] at ed2
    omega

lemma evInv_processEntity (env : PipelineEnv) (sid : String)
    (st : BuildState) (ent : ExtractedEntity) :
    evInv st (processEntity env true sid st ent) := by
  unfold processEntity
  cases hf : findNode st.db sid ent.node_id with
  | some n => exact ⟨rfl, rfl, rfl, rfl, le_refl _⟩
  | none =>
      cases hemb : env.getEmbedding ent.label with
      | none =>
          refine ⟨?_, ?_, ?_, ?_, ?_⟩ <;>
            simp [countBatchEv, countEmbedBatchEv, countNodeAddedEv,
                  countEmbedSingleEv, countEdgeAddedEv, List.countP_append,
                  List.countP_cons]
      | some emb =>
          dsimp only
          obtain ⟨b, eb, es, na, ln, ed⟩ := createEntityStep_counts env sid
            { st with events := st.events ++ [Ev.embedSingle ent.label] }
            ent emb
          dsimp only at b eb es na ln ed
          have hB : countBatchEv (st.events ++ [Ev.embedSingle ent.label])
              = countBatchEv st.events := by
            simp [countBatchEv, List.countP_append, List.countP_cons]
          have hEB : countEmbedBatchEv (st.events ++ [Ev.embedSingle ent.label])
              = countEmbedBatchEv st.events := by
            simp [countEmbedBatchEv, List.countP_append, List.countP_cons]
          have hNA : countNodeAddedEv (st.events ++ [Ev.embedSingle ent.label])
              = countNodeAddedEv st.events := by
            simp [countNodeAddedEv, List.countP_append, List.countP_cons]
          have hEA : countEdgeAddedEv (st.events ++ [Ev.embedSingle ent.label])
              = countEdgeAddedEv st.events := by
            simp [countEdgeAddedEv, List.countP_append, List.countP_cons]
          have hES : countEmbedSingleEv (st.events ++ [Ev.embedSingle ent.label])
              = countEmbedSingleEv st.events + 1 := by
            simp [countEmbedSingleEv, List.countP_append, List.countP_cons]
          refine ⟨?_, ?_, ?_, ?_, ?_⟩ <;> omega

lemma evInv_foldl_entities (env : PipelineEnv) (sid : String)
    (ents : List ExtractedEntity) (st : BuildState) :
    evInv st (ents.foldl (processEntity env true sid) st) := by
  induction ents generalizing st with
  | nil => exact evInv_refl st
  | cons e rest ih =>
      rw [List.foldl_cons]
      exact evInv_trans (evInv_processEntity env sid st e)
        (ih (processEntity env true sid st e))

lemma status_append_counts (l : List Ev) (stx msg : String) :
    countBatchEv (l ++ [Ev.processingStatus stx msg]) = countBatchEv l ∧
    countEmbedBatchEv (l ++ [Ev.processingStatus stx msg])
      = countEmbedBatchEv l ∧
    countNodeAddedEv (l ++ [Ev.processingStatus stx msg])
      = countNodeAddedEv l ∧
    countEdgeAddedEv (l ++ [Ev.processingStatus stx msg])
      = countEdgeAddedEv l ∧
    countEmbedSingleEv (l ++ [Ev.processingStatus stx msg])
      = countEmbedSingleEv l := by
  refine ⟨?_, ?_, ?_, ?_, ?_⟩ <;>
    simp [countBatchEv, countEmbedBatchEv, countNodeAddedEv, countEdgeAddedEv,
          countEmbedSingleEv, List.countP_append, List.countP_cons]

lemma counts_after_pipeline (env : PipelineEnv) (sid : String)
    (ents : List ExtractedEntity) (st0 : BuildState)
    (hb : countBatchEv st0.events = 0)
    (heb : countEmbedBatchEv st0.events = 0)
    (hna : countNodeAddedEv st0.events = 0)
    (hea : countEdgeAddedEv st0.events = 0)
    (hes : countEmbedSingleEv st0.events = 0)
    (hn0 : st0.nodesAdded = []) (he0 : st0.edgesAdded = []) :
    countBatchEv (ents.foldl (processEntity env true sid) st0).events = 0 ∧
    countEmbedBatchEv (ents.foldl (processEntity env true sid) st0).events
      = 0 ∧
    countNodeAddedEv (ents.foldl (processEntity env true sid) st0).events
      = (ents.foldl (processEntity env true sid) st0).nodesAdded.length ∧
    countEdgeAddedEv (ents.foldl (processEntity env true sid) st0).events
      = (ents.foldl (processEntity env true sid) st0).edgesAdded.length ∧
    countEmbedSingleEv (ents.foldl (processEntity env true sid) st0).events
      ≥ (ents.foldl (processEntity env true sid) st0).nodesAdded.length := by
  obtain ⟨b, eb, na, ea, es⟩ := evInv_foldl_entities env sid ents st0
  rw [hn0] at na es
  rw [he0] at ea
  simp only [List.length_nil] at na ea es
  exact ⟨b.trans hb, eb.trans heb, by omega, by omega, by omega⟩

/-- Claim C6 counterexample: one `process_transcript_chunk` call that
creates one node emits ZERO batched broadcasts and ONE per-entity
`node_added` broadcast — the pipeline never calls
`broadcast_graph_batch_update` and broadcasts per entity instead,
refuting "exactly one batched broadcast ... never per-entity
broadcasts". -/
theorem C6_counterexample :
    countBatchEv (process_transcript_chunk envC6 true "s" "hello" dbEmpty).2.2
      = 0 ∧
    countNodeAddedEv
      (process_transcript_chunk envC6 true "s" "hello" dbEmpty).2.2 = 1 ∧
    ¬ (countBatchEv
        (process_transcript_chunk envC6 true "s" "hello" dbEmpty).2.2 = 1 ∧
       countNodeAddedEv
        (process_transcript_chunk envC6 true "s" "hello" dbEmpty).2.2 = 0) := by
  decide

/-- Claim C6, amended: in every invocation the pipeline emits ZERO batched
broadcasts, and instead one `node_added` broadcast per node added and one
`edge_added` broadcast per edge added. -/
theorem C6_amended_per_entity_broadcasts (env : PipelineEnv)
    (sid chunk : String) (db : Db) :
    countBatchEv (process_transcript_chunk env true sid chunk db).2.2 = 0 ∧
    countNodeAddedEv (process_transcript_chunk env true sid chunk db).2.2
      = (process_transcript_chunk env true sid chunk db).1.nodes_added.length ∧
    countEdgeAddedEv (process_transcript_chunk env true sid chunk db).2.2
      = (process_transcript_chunk env true sid chunk db).1.edges_added.length := by
  unfold process_transcript_chunk
  dsimp only
  simp only [eq_self_iff_true, if_true]
  by_cases hempty : (extract chunk env.llm).entities.isEmpty = true
  · rw [if_pos hempty]
    refine ⟨?_, ?_, ?_⟩ <;>
      simp [countBatchEv, countNodeAddedEv, countEdgeAddedEv, List.countP_cons]
  · rw [if_neg hempty]
    obtain ⟨c1, c2, c3, c4, c5⟩ := counts_after_pipeline env sid
      (extract chunk env.llm).entities
      ⟨db, [], [],
       (db.nodes.filter (fun n => n.sessionId == sid)).map
         (fun n => (n.nodeId, n.embedding)),
       [Ev.processingStatus "extracting" "Extracting entities from transcript"]
         ++ [Ev.processingStatus "embedding" "Generating semantic embeddings"]⟩
      (by simp [countBatchEv, List.countP_append, List.countP_cons])
      (by simp [countEmbedBatchEv, List.countP_append, List.countP_cons])
      (by simp [countNodeAddedEv, List.countP_append, List.countP_cons])
      (by simp [countEdgeAddedEv, List.countP_append, List.countP_cons])
      (by simp [countEmbedSingleEv, List.countP_append, List.countP_cons])
      rfl rfl
    refine ⟨?_, ?_, ?_⟩
    · rw [(status_append_counts _ "completed" "Processing completed").1]
      exact c1
    · rw [(status_append_counts _ "completed" "Processing completed").2.2.1]
      exact c3
    · rw [(status_append_counts _ "completed" "Processing completed").2.2.2.1]
      exact c4

/-- Claim C8 counterexample: a call that extracts two new entities makes
TWO single-label embedding calls and ZERO batched embedding calls —
`get_embeddings_batch` is never used by the pipeline, refuting "one
single batched call ... not one embedding call per entity". -/
theorem C8_counterexample :
    countEmbedSingleEv
      (process_transcript_chunk envC8 true "s" "hello" dbEmpty).2.2 = 2 ∧
    countEmbedBatchEv
      (process_transcript_chunk envC8 true "s" "hello" dbEmpty).2.2 = 0 ∧
    (process_transcript_chunk envC8 true "s" "hello" dbEmpty).1.nodes_added.length
      = 2 ∧
    ¬ (countEmbedSingleEv
        (process_transcript_chunk envC8 true "s" "hello" dbEmpty).2.2 = 0 ∧
       countEmbedBatchEv
        (process_transcript_chunk envC8 true "s" "hello" dbEmpty).2.2 = 1) := by
  decide

/-- Claim C8, amended: the pipeline never calls the batch embedding
primitive; it makes one `get_embedding` call per extracted entity that is
not already stored — in particular at least one single-label call per
node added. -/
theorem C8_amended_per_entity_embedding (env : PipelineEnv)
    (sid chunk : String) (db : Db) :
    countEmbedBatchEv (process_transcript_chunk env true sid chunk db).2.2
      = 0 ∧
    countEmbedSingleEv (process_transcript_chunk env true sid chunk db).2.2
      ≥ (process_transcript_chunk env true sid chunk db).1.nodes_added.length := by
  unfold process_transcript_chunk
  dsimp only
  simp only [eq_self_iff_true, if_true]
  by_cases hempty : (extract chunk env.llm).entities.isEmpty = true
  · rw [if_pos hempty]
    refine ⟨?_, ?_⟩ <;>
      simp [countEmbedBatchEv, countEmbedSingleEv, List.countP_cons]
  · rw [if_neg hempty]
    obtain ⟨c1, c2, c3, c4, c5⟩ := counts_after_pipeline env sid
      (extract chunk env.llm).entities
      ⟨db, [], [],
       (db.nodes.filter (fun n => n.sessionId == sid)).map
         (fun n => (n.nodeId, n.embedding)),
       [Ev.processingStatus "extracting" "Extracting entities from transcript"]
         ++ [Ev.processingStatus "embedding" "Generating semantic embeddings"]⟩
      (by simp [countBatchEv, List.countP_append, List.countP_cons])
      (by simp [countEmbedBatchEv, List.countP_append, List.countP_cons])
      (by simp [countNodeAddedEv, List.countP_append, List.countP_cons])
      (by simp [countEdgeAddedEv, List.countP_append, List.countP_cons])
      (by simp [countEmbedSingleEv, List.countP_append, List.countP_cons])
      rfl rfl
    refine ⟨?_, ?_⟩
    · rw [(status_append_counts _ "completed" "Processing completed").2.1]
      exact c2
    · rw [(status_append_counts _ "completed" "Processing completed").2.2.2.2]
      exact c5

/-! ## Extractor robustness claim (C10) -/

/-- Claim C10: `extract` never raises — empty/whitespace input, a raised
capability call, a missing function call and malformed JSON all yield an
empty entity list, and individually malformed entities are skipped
(partial list); consequently `process_transcript_chunk` returns status
`"no_entities_found"` (never `"error"`) both for genuinely empty input
and for a totally failed extraction call, and the two cases produce
identical results at the public interface. -/
theorem C10_extract_total_no_error_status (chunk chunk2 : String)
    (raws : List RawEntity) (llm : LLMOutcome) (env env2 : PipelineEnv)
    (rt : Bool) (sid : String) (db : Db)
    (hraise : env.llm = .llmRaise) (hblank : isBlankChunk chunk2 = true) :
    extract chunk .llmRaise = { entities := [] } ∧
    extract chunk .noFunctionCall = { entities := [] } ∧
    extract chunk (.functionCall .malformed) = { entities := [] } ∧
    (isBlankChunk chunk = true → extract chunk llm = { entities := [] }) ∧
    (isBlankChunk chunk = false →
      extract chunk (.functionCall (.parsed raws))
        = { entities := raws.filterMap parseEntity }) ∧
    process_transcript_chunk env rt sid chunk db
      = ({ nodes_added := [], edges_added := [],
           status := "no_entities_found", error := none }, db,
         if rt then [Ev.processingStatus "extracting"
            "Extracting entities from transcript"] else []) ∧
    process_transcript_chunk env rt sid chunk db
      = process_transcript_chunk env2 rt sid chunk2 db := by
  have hx : extract chunk LLMOutcome.llmRaise = { entities := [] } := by
    by_cases hb : isBlankChunk chunk = true <;> simp [extract, hb]
  have hp1 : process_transcript_chunk env rt sid chunk db
      = ({ nodes_added := [], edges_added := [],
           status := "no_entities_found", error := none }, db,
         if rt then [Ev.processingStatus "extracting"
            "Extracting entities from transcript"] else []) := by
    unfold process_transcript_chunk
    dsimp only
    rw [hraise, hx]
    rfl
  have hy : extract chunk2 env2.llm = { entities := [] } := by
    cases env2.llm <;> simp [extract, hblank]
  have hp2 : process_transcript_chunk env2 rt sid chunk2 db
      = ({ nodes_added := [], edges_added := [],
           status := "no_entities_found", error := none }, db,
         if rt then [Ev.processingStatus "extracting"
            "Extracting entities from transcript"] else []) := by
    unfold process_transcript_chunk
    dsimp only
    rw [hy]
    rfl
  refine ⟨hx, ?_, ?_, ?_, ?_, hp1, hp1.trans hp2.symm⟩
  · by_cases hb : isBlankChunk chunk = true <;> simp [extract, hb]
  · by_cases hb : isBlankChunk chunk = true <;> simp [extract, hb]
  · intro h
    cases llm <;> simp [extract, h]
  · intro h
    simp [extract, h]

/-- Witness for C10: a failed extraction call on a non-empty chunk yields
exactly the same result as a successful environment on an empty chunk;
malformed entities are skipped while well-formed ones are kept. -/
theorem C10_extract_total_witness :
    extract "hello" (.functionCall (.parsed [rawWork, rawBad]))
      = { entities := [⟨"work", .TOPIC, "Work", none⟩] } ∧
    process_transcript_chunk envRaise true "s" "hello" dbEmpty
      = process_transcript_chunk envC6 true "s" "" dbEmpty ∧
    (process_transcript_chunk envRaise true "s" "hello" dbEmpty).1.status
      = "no_entities_found" := by
  have h := C10_extract_total_no_error_status "hello" "" [rawWork, rawBad]
    .llmRaise envRaise envC6 true "s" dbEmpty rfl (by decide)
  refine ⟨?_, h.2.2.2.2.2.2, ?_⟩
  · have h5 := h.2.2.2.2.1 (by decide)
    rw [h5]
    rfl
  · rw [h.2.2.2.2.2.1]

end Dimini
